import Mathlib

/-!
Verification of the ART debt-consolidation engine
(`art/services/consolidar.py`, `art/utils/consolidado.py`,
`art/services/persistencia_consolidado.py`).

Modelling conventions:
* a pandas cell of a `dtype=str` column is `Option String` (`none` = NaN);
* pandas floats are modelled as exact rationals `ℚ` (a float column cell is
  `Option ℚ`, `none` = NaN); `round(x, n)` is decimal round-half-to-even;
* a DataFrame is a `List` of row structures; `sort_values` by a boolean key
  (stable) followed by `drop_duplicates(keep := first)` is modelled per key
  group as: first row satisfying the key predicate, else first row.
-/

namespace Cobranzas

instance {ε α : Type} [DecidableEq ε] [DecidableEq α] : DecidableEq (Except ε α) := fun a b =>
  match a, b with
  | .error e, .error f => decidable_of_iff (e = f) (by simp)
  | .ok x, .ok y => decidable_of_iff (x = y) (by simp)
  | .error _, .ok _ => Decidable.isFalse (by simp)
  | .ok _, .error _ => Decidable.isFalse (by simp)

/-- Python `str(cell)` on a cell of an object column: NaN renders as "nan". -/
def pyStr : Option String → String
  | none => "nan"
  | some s => s

/-- Python `str.strip()` on a character list. -/
def pyStrip (cs : List Char) : List Char :=
  ((cs.dropWhile Char.isWhitespace).reverse.dropWhile Char.isWhitespace).reverse

/-- Python `str.strip()`. -/
def stripStr (s : String) : String :=
  String.mk (pyStrip s.toList)

/-- Python `str.upper()` (ASCII, as used on insurer names). -/
def upperStr (s : String) : String :=
  String.mk (s.toList.map Char.toUpper)

/-- Python `str.lower()` / `str.casefold()` (ASCII). -/
def lowerStr (s : String) : String :=
  String.mk (s.toList.map Char.toLower)

/-- Value of a digit list read in base 10. -/
def digitsToNat (cs : List Char) : ℕ :=
  cs.foldl (fun a c => 10 * a + (c.toNat - 48)) 0

/-- Core of `_norm_cuit_str`: `zfill(11)` then `[-11:]` on a digit list. -/
def padTake11 (ds : List Char) : List Char :=
  let padded := List.replicate (11 - ds.length) '0' ++ ds
  padded.drop (padded.length - 11)

/-- `_norm_cuit_str` (consolidar.py): keep only digits, left-pad with zeros
to width 11, keep the last 11 characters. -/
def normCuit (s : String) : String :=
  String.mk (padTake11 (s.toList.filter Char.isDigit))

/-- Round a rational to the nearest integer, ties to even
(Python / numpy `round` semantics on exact values).  The fractional part
`x - ⌊x⌋ = (x.num - ⌊x⌋ * x.den) / x.den` is compared with `1/2` by
cross-multiplication so that the definition evaluates by kernel reduction. -/
def roundHalfEven (x : ℚ) : ℤ :=
  let f := ⌊x⌋
  let rnum := x.num - f * (x.den : ℤ)
  if 2 * rnum < (x.den : ℤ) then f
  else if (x.den : ℤ) < 2 * rnum then f + 1
  else if f % 2 = 0 then f else f + 1

/-- `x * 100`, written so that it evaluates by kernel reduction. -/
def scale100 (x : ℚ) : ℚ :=
  mkRat (x.num * 100) x.den

/-- Exact division of rationals, written so that it evaluates by kernel
reduction (`ratDiv_eq` below identifies it with `a / b`). -/
def ratDiv (a b : ℚ) : ℚ :=
  Rat.divInt (a.num * (b.den : ℤ)) ((a.den : ℤ) * b.num)

/-- `round(x, 2)`. -/
def round2 (x : ℚ) : ℚ :=
  mkRat (roundHalfEven (scale100 x)) 100

/-- Characters kept by the regex `[^0-9,\.\-]` substitution in
`_to_number_ar_series`. -/
def arKeep (c : Char) : Bool :=
  c.isDigit || c = ',' || c = '.' || c = '-'

/-- `_swap_commas` (consolidar.py): if the string has any comma, drop the
periods and turn the commas into periods. -/
def swapCommas (cs : List Char) : List Char :=
  if cs.contains ',' then (cs.filter (fun c => c ≠ '.')).map (fun c => if c = ',' then '.' else c)
  else cs

/-- Unsigned part of Python `float(s)`: digits with at most one period,
at least one digit, nothing else.  The value `intPart.fracPart` equals
`digits(intPart ++ fracPart) / 10 ^ |fracPart|`. -/
def parseUnsigned (cs : List Char) : Option ℚ :=
  let intPart := cs.takeWhile (fun c => c ≠ '.')
  match cs.dropWhile (fun c => c ≠ '.') with
  | [] =>
    if intPart.all Char.isDigit && !intPart.isEmpty then some (digitsToNat intPart : ℚ)
    else none
  | _ :: frac =>
    if (intPart ++ frac).all Char.isDigit && !(intPart ++ frac).isEmpty then
      some (mkRat (digitsToNat (intPart ++ frac)) (10 ^ frac.length))
    else none

/-- Python `float(s)` on the character set left by `arKeep`
(`pd.to_numeric(·, errors := coerce)`: failure becomes NaN = `none`). -/
def pyFloatQ (cs : List Char) : Option ℚ :=
  match cs with
  | '-' :: rest => (parseUnsigned rest).map Neg.neg
  | _ => parseUnsigned cs

/-- `_to_number_ar_series` (consolidar.py), element-wise on a string cell:
strip, map "", "nan", "None" to NaN, drop every character outside
`[0-9,.-]`, treat any comma as the decimal separator (dropping periods),
then coerce to a number (unparseable text becomes NaN = `none`). -/
def toNumberAR (s : String) : Option ℚ :=
  let t := stripStr s
  if t = "" || t = "nan" || t = "None" then none
  else pyFloatQ (swapCommas (t.toList.filter arKeep))

/-- `_to_number_ar_series(·, decimals := 2)`. -/
def toNumberAR2 (s : String) : Option ℚ :=
  (toNumberAR s).map round2

/-- `isna(x) or str(x).strip() == ""` on a string cell (blank `Cuenta
Perdida` means a Vigente master row). -/
def isBlankCell : Option String → Bool
  | none => true
  | some s => stripStr s = ""

/-- `_norm_aseg_str`: `astype(str).str.strip().str.upper()`. -/
def normAseg (v : Option String) : String :=
  upperStr (stripStr (pyStr v))

/-- `_is_empty_email`: blank after strip, or the literal "nan"/"none"
case-insensitively. -/
def isEmptyEmail (v : Option String) : Bool :=
  let s := stripStr (pyStr v)
  s = "" || lowerStr s = "nan" || lowerStr s = "none"

/-- `_as_bool`: strip + casefold, then membership in the truthy set. -/
def asBool (v : Option String) : Bool :=
  let s := lowerStr (stripStr (pyStr v))
  s = "true" || s = "verdadero" || s = "1" || s = "t" || s = "yes" || s = "si" || s = "sí"

/-- `pd.to_numeric(·, errors := coerce)` on a string cell (plain float
syntax; scientific notation does not occur in the contract numbers). -/
def pyToNumeric (v : Option String) : Option ℚ :=
  match v with
  | none => none
  | some s => pyFloatQ (pyStrip s.toList)

/-- A master-roster row as produced by `_cargar_maestro_raw`: every column
read as text (`dtype=str`), then the CUIT column normalized and the
monthly-cost column parsed (2 decimals). -/
structure MaestroRow where
  cuit : String
  razon : Option String
  contrato : Option String
  aseguradora : Option String
  costo : Option ℚ
  cuentaPerdida : Option String
  email : Option String
  noContactar : Option String
  productor1 : Option String
  productor2 : Option String
  referidoPor : Option String
  clienteImp : Option String
  capitas : Option String
  ramo : Option String
deriving DecidableEq

/-- One row of the aggregated debt extracts (`_cargar_deudas` output):
one row per (CUIT, source insurer), debt summed. -/
structure DeudaRow where
  cuit : String
  deudaTotal : Option ℚ
  asegOrigen : String
deriving DecidableEq

/-- One output row in the schema COLUMNS_ORDER. -/
structure ConsolidadoRow where
  periodo : String
  razonSocial : Option String
  cuit : String
  contrato : Option ℚ
  aseguradora : String
  deudaTotal : Option ℚ
  costoMensual : Option ℚ
  qPeriodos : Option ℚ
  estadoContrato : Option String
  email : Option String
  noContactar : Option String
  productor : Option String
  premier : Option String
  clienteImportante : Option String
deriving DecidableEq

/-- The master rows sharing the (CUIT, normalized insurer) key. -/
def keyRows (maestro : List MaestroRow) (c a : String) : List MaestroRow :=
  maestro.filter (fun m => m.cuit == c && normAseg m.aseguradora == a)

/-- The compaction of the master to one row per (CUIT, insurer) key
(lines 272-273 of consolidar.py): a stable sort putting Vigente
(blank `Cuenta Perdida`) first, then `drop_duplicates(keep := first)`;
per key group this selects the first Vigente row in input order if one
exists, otherwise the first row in input order. -/
def selectMaestro (maestro : List MaestroRow) (c a : String) : Option MaestroRow :=
  let ms := keyRows maestro c a
  match ms.find? (fun m => isBlankCell m.cuentaPerdida) with
  | some m => some m
  | none => ms.head?

/-- The left merge on (CUIT, source insurer) restricted to the rows that
do match (`df[df["_ASEG_n"].notna()]`, line 285). -/
def matchedPairs (maestro : List MaestroRow) (deudas : List DeudaRow) :
    List (DeudaRow × MaestroRow) :=
  deudas.filterMap (fun d =>
    (selectMaestro maestro d.cuit (normAseg (some d.asegOrigen))).map (fun m => (d, m)))

/-- Column derivation for one matched row (lines 288-326 of
consolidar.py).  `anyProd1` is the whole-column test
`df[M_PRODUCTOR1].notna().any()` deciding which producer column is used.
`periodoN` is the `_norm_periodo` output computed by the caller. -/
def derivarRow (periodoN : String) (anyProd1 : Bool) (d : DeudaRow) (m : MaestroRow) :
    ConsolidadoRow :=
  let costo0 : Option ℚ := m.costo.map round2
  let deuda0 : Option ℚ := d.deudaTotal.map round2
  let q0 : Option ℚ :=
    match costo0 with
    | some c => if c = 0 then none else deuda0.map (fun dd => round2 (ratDiv dd c))
    | none => none
  let blankCosto : Bool := match costo0 with | none => true | some c => decide (c = 0)
  let prod : Option String := if anyProd1 then m.productor1 else m.productor2
  { periodo := periodoN
    razonSocial := m.razon
    cuit := m.cuit
    contrato := pyToNumeric m.contrato
    aseguradora := d.asegOrigen
    deudaTotal := deuda0
    costoMensual := if blankCosto then none else costo0
    qPeriodos := if blankCosto then none else q0
    estadoContrato :=
      some (if isBlankCell m.cuentaPerdida then "Vigente" else pyStr m.cuentaPerdida)
    email := m.email
    noContactar := m.noContactar
    productor := if stripStr (pyStr prod) = "" then some "PROMECOR" else prod
    premier :=
      some (if upperStr (stripStr (pyStr m.referidoPor)) = "PREMIER" then "Premier"
            else "No es Premier")
    clienteImportante := m.clienteImp }

/-- Business filter (A), line 331: drop `Ramo = "Domestica"`. -/
def ramoNotDomestica (m : MaestroRow) : Bool :=
  lowerStr (stripStr (pyStr m.ramo)) ≠ "domestica"

/-- Business filter (B), line 335: keep debt ≥ 1000 or debt < 0 (a NaN
debt satisfies neither comparison and is dropped). -/
def debtKeep : Option ℚ → Bool
  | none => false
  | some v => decide (1000 ≤ v) || decide (v < 0)

/-- All matched rows after column derivation, each kept with its master
row (whose `Ramo` drives filter (A)). -/
def derivedRows (periodoN : String) (maestro : List MaestroRow) (deudas : List DeudaRow) :
    List (ConsolidadoRow × MaestroRow) :=
  let matched := matchedPairs maestro deudas
  let anyProd1 := matched.any (fun p => p.2.productor1.isSome)
  matched.map (fun p => (derivarRow periodoN anyProd1 p.1 p.2, p.2))

/-- `df_consolidado` from the merged input tables: match, derive, drop
Domestica, apply the debt band filter, project to the output schema. -/
def dfConsolidado (periodoN : String) (maestro : List MaestroRow) (deudas : List DeudaRow) :
    List ConsolidadoRow :=
  (((derivedRows periodoN maestro deudas).filter (fun p => ramoNotDomestica p.2)).filter
    (fun p => debtKeep p.1.deudaTotal)).map Prod.fst

/-- `df_no_cruzan`: the extract rows whose (CUIT, source insurer) key has
no master row; the `cuitsDuplicados` argument is accepted and ignored,
as in the source ("no utilizado en esta versión"). -/
def dfNoCruzan (periodoN : String) (cuitsDuplicados : List String)
    (maestro : List MaestroRow) (deudas : List DeudaRow) : List ConsolidadoRow :=
  (deudas.filter (fun d =>
      (selectMaestro maestro d.cuit (normAseg (some d.asegOrigen))).isNone)).map
    (fun d =>
      { periodo := periodoN
        razonSocial := none
        cuit := d.cuit
        contrato := none
        aseguradora := d.asegOrigen
        deudaTotal := d.deudaTotal.map round2
        costoMensual := none
        qPeriodos := none
        estadoContrato := none
        email := none
        noContactar := none
        productor := none
        premier := none
        clienteImportante := none })

/-- The row predicate of `df_deuda_promecor` (lines 461-469):
producer (NaN filled with "", stripped, uppercased) equals PROMECOR,
Q defined and > 1, contract state exactly "Vigente", important-client
and do-not-contact both falsy, Premier exactly "No es Premier", email
not empty, debt defined and ≥ 1000. -/
def deudaPromecorPred (r : ConsolidadoRow) : Bool :=
  upperStr (stripStr (r.productor.getD "")) == "PROMECOR"
    && (match r.qPeriodos with | some v => decide (1 < v) | none => false)
    && r.estadoContrato == some "Vigente"
    && !(asBool r.clienteImportante)
    && !(asBool r.noContactar)
    && r.premier == some "No es Premier"
    && !(isEmptyEmail r.email)
    && (match r.deudaTotal with | some v => decide (1000 ≤ v) | none => false)

/-- `df_deuda_promecor` (lines 457-470): the house-brand debt view over
the matched base table. -/
def dfDeudaPromecor (base : List ConsolidadoRow) : List ConsolidadoRow :=
  base.filter deudaPromecorPred

/-- Python `int(s)`: optional sign then digits, surrounding whitespace
allowed (digit-group underscores do not occur in period strings). -/
def pyInt (s : String) : Option ℤ :=
  match pyStrip s.toList with
  | '-' :: rest =>
    if rest.all Char.isDigit && !rest.isEmpty then some (-(digitsToNat rest : ℤ)) else none
  | '+' :: rest =>
    if rest.all Char.isDigit && !rest.isEmpty then some (digitsToNat rest : ℤ) else none
  | cs =>
    if cs.all Char.isDigit && !cs.isEmpty then some (digitsToNat cs : ℤ) else none

/-- `_parse_periodo` (persistencia_consolidado.py): empty input raises;
strip, turn "/" into "-", split on "-", demand exactly two parts; the
part of length 4 is the year (otherwise the order is month-year);
`date(year, month, 1)` validates `1 ≤ month ≤ 12` and `1 ≤ year ≤ 9999`.
Returns the canonical (month, year) pair; errors model the raised
`ValueError`s. -/
def parsePeriodo (s : String) : Except String (ℕ × ℕ) :=
  if s = "" then .error "periodo_str vacío"
  else
    let t := (pyStrip s.toList).map (fun c => if c = '/' then '-' else c)
    match t.splitOn '-' with
    | [a, b] =>
      match pyInt (String.mk a), pyInt (String.mk b) with
      | some x, some y =>
        let yyyy := if a.length = 4 then x else y
        let mm := if a.length = 4 then y else x
        if 1 ≤ mm ∧ mm ≤ 12 ∧ 1 ≤ yyyy ∧ yyyy ≤ 9999 then .ok (mm.toNat, yyyy.toNat)
        else .error "month/year out of range for date()"
      | _, _ => .error "invalid literal for int()"
    | _ => .error "Formato de periodo no soportado"

/-- A persisted `ConsolidadoLote` header (the fields the duplicate gate
touches). -/
structure Lote where
  id : ℕ
  hashEntrada : String
  filasConsolidado : ℕ
  filasNoCruzan : ℕ
deriving DecidableEq

/-- A persisted `ConsolidadoItem` line (payload abstracted to the source
row text; no claim concerns the per-field mapping). -/
structure Item where
  loteId : ℕ
  periodo : ℕ × ℕ
  hoja : String
  payload : String
deriving DecidableEq

/-- The relational store touched by `guardar_lote_y_items`. -/
structure DBState where
  lotes : List Lote
  items : List Item
  nextId : ℕ
deriving DecidableEq

/-- `GuardadoResultado` (the lot is reported by id). -/
structure GuardadoResultado where
  loteId : ℕ
  itemsCreados : ℕ
  duplicado : Bool
deriving DecidableEq

/-- `order_by("-id").first()`: the element with the largest id
(`none` on an empty query set). -/
def maxIdLote : List Lote → Option Lote
  | [] => none
  | x :: xs => some (xs.foldl (fun b l => if b.id < l.id then l else b) x)

/-- `guardar_lote_y_items`: parse the period, optionally hash the input,
return early with a duplicate result when hash-based duplicate detection
is on and a lot with the same input hash already exists, otherwise
(optionally clearing the period) create one lot plus one item per row of
the three sheets.  `hashFn` stands for the SHA-256 digest `_calc_hash`,
a deterministic function of the inputs. -/
def guardarLoteYItems (hashFn : String → List String → List String → List String → String)
    (st : DBState) (periodoStr : String) (dfC dfN dfP : List String)
    (calcularHash evitarDuplicadoPorHash reemplazarPeriodo : Bool) :
    Except String (DBState × GuardadoResultado) :=
  match parsePeriodo periodoStr with
  | .error e => .error e
  | .ok periodo =>
    let entradaHash := if calcularHash then hashFn periodoStr dfC dfN dfP else ""
    let dupLote : Option Lote :=
      if calcularHash && evitarDuplicadoPorHash then
        maxIdLote (st.lotes.filter (fun l => l.hashEntrada == entradaHash))
      else none
    match dupLote with
    | some l => .ok (st, { loteId := l.id, itemsCreados := 0, duplicado := true })
    | none =>
      let st1 :=
        if reemplazarPeriodo then
          { st with items := st.items.filter (fun it => it.periodo ≠ periodo) }
        else st
      let lote : Lote :=
        { id := st.nextId, hashEntrada := entradaHash,
          filasConsolidado := dfC.length, filasNoCruzan := dfN.length }
      let newItems :=
        dfC.map (fun r => Item.mk st.nextId periodo "consolidado" r)
          ++ dfN.map (fun r => Item.mk st.nextId periodo "no_cruzan" r)
          ++ dfP.map (fun r => Item.mk st.nextId periodo "productor" r)
      .ok ({ lotes := st1.lotes ++ [lote], items := st1.items ++ newItems,
             nextId := st.nextId + 1 },
           { loteId := lote.id, itemsCreados := newItems.length, duplicado := false })

end Cobranzas

namespace Cobranzas

example : normCuit "20-12345678-9" = "20123456789" := by decide
example : normCuit "345" = "00000000345" := by decide
example : toNumberAR "$ 1.234.567,89" = some (mkRat 123456789 100) := by decide
example : toNumberAR "" = none := by decide
example : toNumberAR "1234.56" = some (mkRat 123456 100) := by decide
example : toNumberAR "1,234.56" = some (mkRat 123456 100000) := by decide
example : toNumberAR "abc" = none := by decide
example : toNumberAR "-500" = some (-500) := by decide
example : round2 (mkRat 25 1000) = mkRat 2 100 := by decide
example : round2 (mkRat 35 1000) = mkRat 4 100 := by decide
example : round2 (ratDiv 1000 (-500)) = -2 := by decide

def maestroBase : MaestroRow :=
  { cuit := "20123456789", razon := some "ACME SA", contrato := some "123",
    aseguradora := some "Galeno", costo := some 1000, cuentaPerdida := none,
    email := some "a@b.com", noContactar := none, productor1 := none,
    productor2 := some "PROMECOR", referidoPor := none, clienteImp := none,
    capitas := none, ramo := some "ART" }

def deudaBase : DeudaRow :=
  { cuit := "20123456789", deudaTotal := some 2500, asegOrigen := "Galeno" }

def mAnulado : MaestroRow := { maestroBase with cuentaPerdida := some "Anulado" }

def mVigLit : MaestroRow := { maestroBase with cuentaPerdida := some "Vigente" }

def mNeg : MaestroRow := { maestroBase with costo := some (-500) }

def mDomestica : MaestroRow := { maestroBase with ramo := some "Domestica" }

def mBlankBis : MaestroRow := { maestroBase with razon := some "ACME BIS" }

def deuda1000 : DeudaRow := { deudaBase with deudaTotal := some 1000 }

def deuda5000 : DeudaRow := { deudaBase with deudaTotal := some 5000 }

def deudaMapfre : DeudaRow := { deudaBase with asegOrigen := "Mapfre" }

/-- The row `df_consolidado` derives from `maestroBase` × `deudaBase`. -/
def rowBase : ConsolidadoRow :=
  { periodo := "05-2024", razonSocial := some "ACME SA", cuit := "20123456789",
    contrato := some 123, aseguradora := "Galeno", deudaTotal := some 2500,
    costoMensual := some 1000, qPeriodos := some (mkRat 5 2),
    estadoContrato := some "Vigente", email := some "a@b.com", noContactar := none,
    productor := some "PROMECOR", premier := some "No es Premier",
    clienteImportante := none }

def loteDup : Lote := ⟨7, "h", 1, 0⟩

def stDup : DBState := ⟨[loteDup], [], 8⟩

example :
    dfConsolidado "05-2024" [maestroBase] [deudaBase] =
      [{ periodo := "05-2024", razonSocial := some "ACME SA", cuit := "20123456789",
         contrato := some 123, aseguradora := "Galeno", deudaTotal := some 2500,
         costoMensual := some 1000, qPeriodos := some (mkRat 5 2),
         estadoContrato := some "Vigente", email := some "a@b.com", noContactar := none,
         productor := some "PROMECOR", premier := some "No es Premier",
         clienteImportante := none }] := by decide

example :
    (dfConsolidado "05-2024" [{ maestroBase with costo := some (-500) }]
        [{ deudaBase with deudaTotal := some 1000 }]).map
      (fun r => (r.costoMensual, r.qPeriodos)) = [(some (-500), some (-2))] := by decide

example :
    (dfConsolidado "05-2024" [{ maestroBase with costo := some 0 }] [deudaBase]).map
      (fun r => (r.costoMensual, r.qPeriodos)) = [(none, none)] := by decide

example :
    dfConsolidado "05-2024" [{ maestroBase with ramo := some "Domestica" }] [deudaBase] = [] := by
  decide

example :
    (dfConsolidado "05-2024" [maestroBase]
      [{ deudaBase with deudaTotal := some 999 }]) = [] := by decide

example :
    (dfConsolidado "05-2024" [maestroBase]
      [{ deudaBase with deudaTotal := some (-50) }]).length = 1 := by decide

example :
    (dfNoCruzan "05-2024" [] [maestroBase]
      [{ deudaBase with asegOrigen := "Mapfre" }]).length = 1 := by decide

example :
    selectMaestro [{ maestroBase with cuentaPerdida := some "Anulado" },
                   { maestroBase with cuentaPerdida := some "Vigente" }]
      "20123456789" "GALENO" =
    some { maestroBase with cuentaPerdida := some "Anulado" } := by decide

example : parsePeriodo "05-2024" = .ok (5, 2024) := by decide
example : parsePeriodo "2024-05" = .ok (5, 2024) := by decide
example : parsePeriodo "2024/05" = .ok (5, 2024) := by decide
example : parsePeriodo "5-2024" = .ok (5, 2024) := by decide
example : (parsePeriodo "2024-05-01").isOk = false := by decide
example : (parsePeriodo "").isOk = false := by decide
example : (parsePeriodo "13-2024").isOk = false := by decide

example :
    guardarLoteYItems (fun _ _ _ _ => "h") ⟨[⟨7, "h", 1, 0⟩], [], 8⟩ "05-2024"
      ["r1", "r2"] [] [] true true false =
    .ok (⟨[⟨7, "h", 1, 0⟩], [], 8⟩, ⟨7, 0, true⟩) := by decide

/-- `ratDiv` is exact division of rationals. -/
theorem ratDiv_eq (a b : ℚ) : ratDiv a b = a / b := by
  unfold ratDiv
  rw [Rat.divInt_eq_div]
  push_cast
  conv_rhs => rw [← Rat.num_div_den a, ← Rat.num_div_den b]
  rw [div_div_eq_mul_div, div_mul_eq_mul_div, div_div]

/-- `scale100` is multiplication by 100. -/
theorem scale100_eq (x : ℚ) : scale100 x = x * 100 := by
  unfold scale100
  rw [Rat.mkRat_eq_div]
  push_cast
  rw [mul_div_right_comm, Rat.num_div_den]

theorem padTake11_length (ds : List Char) : (padTake11 ds).length = 11 := by
  unfold padTake11
  simp only [List.length_drop, List.length_append, List.length_replicate]
  omega

theorem mem_padTake11 {c : Char} {ds : List Char} (h : c ∈ padTake11 ds) :
    c = '0' ∨ c ∈ ds := by
  unfold padTake11 at h
  have h2 := List.mem_of_mem_drop h
  rcases List.mem_append.mp h2 with h3 | h3
  · exact Or.inl (List.eq_of_mem_replicate h3)
  · exact Or.inr h3

theorem padTake11_of_len_ge {ds : List Char} (h : 11 ≤ ds.length) :
    padTake11 ds = ds.drop (ds.length - 11) := by
  unfold padTake11
  have h0 : 11 - ds.length = 0 := by omega
  rw [h0]
  simp

theorem padTake11_all_digit {ds : List Char} (hds : ∀ c ∈ ds, c.isDigit = true) :
    ∀ c ∈ padTake11 ds, c.isDigit = true := by
  intro c hc
  rcases mem_padTake11 hc with h | h
  · subst h; rfl
  · exact hds c h

/-- C7: tax-ID normalization always yields exactly 11 characters, all of
them digits, and is idempotent. -/
theorem norm_cuit_idempotent_eleven_digits (s : String) :
    normCuit (normCuit s) = normCuit s ∧ (normCuit s).length = 11
      ∧ ∀ c ∈ (normCuit s).toList, c.isDigit = true := by
  have hdig : ∀ c ∈ padTake11 (s.toList.filter Char.isDigit), c.isDigit = true :=
    padTake11_all_digit (fun c hc => List.of_mem_filter hc)
  refine ⟨?_, padTake11_length _, hdig⟩
  show String.mk (padTake11 ((padTake11 (s.toList.filter Char.isDigit)).filter Char.isDigit))
      = String.mk (padTake11 (s.toList.filter Char.isDigit))
  rw [List.filter_eq_self.mpr hdig]
  rw [padTake11_of_len_ge (by rw [padTake11_length]), padTake11_length]
  simp

/-- C7 witness: the three conjuncts instantiated at a concrete raw
tax ID (the digit hypothesis discharged at the character '2'). -/
theorem norm_cuit_idempotent_eleven_digits_witness :
    normCuit (normCuit "20-12345678-9") = normCuit "20-12345678-9"
      ∧ (normCuit "20-12345678-9").length = 11
      ∧ Char.isDigit '2' = true :=
  ⟨(norm_cuit_idempotent_eleven_digits "20-12345678-9").1,
    (norm_cuit_idempotent_eleven_digits "20-12345678-9").2.1,
    (norm_cuit_idempotent_eleven_digits "20-12345678-9").2.2 '2' (by decide)⟩

/-- C10: the normalized key is the last 11 digits of the zero-padded
digit-filtered input, so inputs agreeing on those 11 digits collide. -/
theorem norm_cuit_last_eleven (s t : String)
    (hs : 11 ≤ (s.toList.filter Char.isDigit).length)
    (ht : 11 ≤ (t.toList.filter Char.isDigit).length)
    (h : (s.toList.filter Char.isDigit).drop ((s.toList.filter Char.isDigit).length - 11)
        = (t.toList.filter Char.isDigit).drop ((t.toList.filter Char.isDigit).length - 11)) :
    normCuit s = normCuit t := by
  unfold normCuit
  rw [padTake11_of_len_ge hs, padTake11_of_len_ge ht, h]

/-- C10 witness: a 12-digit raw value collides with its 11-digit suffix. -/
theorem norm_cuit_last_eleven_witness :
    normCuit "920123456789" = normCuit "20123456789" :=
  norm_cuit_last_eleven "920123456789" "20123456789" (by decide) (by decide) (by decide)

/-- C5 counterexample: in "1,234.56" the comma comes before the last
period, yet the parser still takes the comma as the decimal separator,
producing 1.23456 instead of the 1234.56 the claim requires. -/
theorem comma_before_period_still_decimal :
    toNumberAR "1,234.56" = some (mkRat 123456 100000)
      ∧ mkRat 123456 100000 ≠ mkRat 123456 100 := by decide

/-- C5 (amended): the parser strips currency markers and whitespace,
maps empty input to no value, parses period-decimal text when no comma
occurs, never fails (total function, returning `none` on unparseable
text), but treats a comma appearing anywhere — not only after the last
period — as the decimal separator, dropping every period. -/
theorem to_number_ar_behavior :
    (∀ s : String, stripStr s = "" → toNumberAR s = none)
      ∧ toNumberAR "$ 1.234.567,89" = some (mkRat 123456789 100)
      ∧ toNumberAR "" = none
      ∧ toNumberAR "1234.56" = some (mkRat 123456 100)
      ∧ toNumberAR "1,234.56" = some (mkRat 123456 100000)
      ∧ toNumberAR "sin numero" = none := by
  refine ⟨?_, by decide, by decide, by decide, by decide, by decide⟩
  intro s h
  unfold toNumberAR
  rw [h]
  rfl

/-- C5 witness: the all-blank-input branch of `to_number_ar_behavior`
applied at a concrete whitespace string. -/
theorem to_number_ar_behavior_witness : toNumberAR "   " = none :=
  to_number_ar_behavior.1 "   " (by decide)

/-- C6 counterexample: the period parser rejects the "YYYY-MM-DD" shape
the claim says it accepts. -/
theorem ymd_period_rejected : (parsePeriodo "2024-05-01").isOk = false := by decide

/-- C6 (amended): the period parser accepts exactly the two-component
month/year shapes ("MM-YYYY" with one- or two-digit month, "YYYY-MM",
and "/" for "-"), returning the (month, year) pair; every input that
does not split into exactly two components — "YYYY-MM-DD" included —
and every two-component input with non-numeric or out-of-range parts
fails with an error surfaced to the caller. -/
theorem parse_periodo_shapes :
    (∀ s : String,
        (((pyStrip s.toList).map (fun c => if c = '/' then '-' else c)).splitOn '-').length ≠ 2 →
        (parsePeriodo s).isOk = false)
      ∧ parsePeriodo "05-2024" = .ok (5, 2024)
      ∧ parsePeriodo "5-2024" = .ok (5, 2024)
      ∧ parsePeriodo "2024-05" = .ok (5, 2024)
      ∧ parsePeriodo "2024/05" = .ok (5, 2024)
      ∧ (parsePeriodo "2024-05-01").isOk = false
      ∧ (parsePeriodo "mayo 2024").isOk = false
      ∧ (parsePeriodo "13-2024").isOk = false
      ∧ (parsePeriodo "").isOk = false := by
  refine ⟨?_, by decide, by decide, by decide, by decide, by decide, by decide, by decide,
    by decide⟩
  intro s h
  unfold parsePeriodo
  by_cases hs : s = ""
  · rw [if_pos hs]; rfl
  · rw [if_neg hs]
    rcases hsp : ((pyStrip s.toList).map (fun c => if c = '/' then '-' else c)).splitOn '-' with
      _ | ⟨a, _ | ⟨b, _ | _⟩⟩ <;> simp_all [Except.isOk, Except.toBool]

/-- C6 witness: the error branch of `parse_periodo_shapes` applied at a
three-component concrete input. -/
theorem parse_periodo_shapes_witness : (parsePeriodo "1-2-3").isOk = false :=
  parse_periodo_shapes.1 "1-2-3" (by decide)

theorem selectMaestro_def (maestro : List MaestroRow) (c a : String) :
    selectMaestro maestro c a =
      match (keyRows maestro c a).find? (fun m => isBlankCell m.cuentaPerdida) with
      | some m => some m
      | none => (keyRows maestro c a).head? := rfl

theorem selectMaestro_eq_none_iff (maestro : List MaestroRow) (c a : String) :
    selectMaestro maestro c a = none ↔ keyRows maestro c a = [] := by
  cases hf : (keyRows maestro c a).find? (fun m => isBlankCell m.cuentaPerdida) with
  | some m =>
    have he : selectMaestro maestro c a = some m := by rw [selectMaestro_def, hf]
    rw [he]
    constructor
    · intro h; exact absurd h (by simp)
    · intro h; rw [h] at hf; exact absurd hf (by simp)
  | none =>
    have he : selectMaestro maestro c a = (keyRows maestro c a).head? := by
      rw [selectMaestro_def, hf]
    rw [he]
    exact List.head?_eq_none_iff

/-- C3 counterexample: among two master rows for one (CUIT, insurer) key
with cancellation-status texts "Anulado" and "Vigente", the match keeps
the first row ("Anulado"): the literal text "Vigente" is not treated as
a vigente row, only a blank status is. -/
theorem literal_vigente_not_preferred :
    selectMaestro [mAnulado, mVigLit] "20123456789" "GALENO" = some mAnulado
      ∧ mAnulado.cuentaPerdida = some "Anulado"
      ∧ mVigLit.cuentaPerdida = some "Vigente"
      ∧ isBlankCell mVigLit.cuentaPerdida = false := by decide

/-- C3 (amended): per (CUIT, insurer) key the match prefers a row with
blank cancellation-status (the literal text "Vigente" does not count),
falls back to the first row in input order, and keys with zero master
rows produce an Unmatched row. -/
theorem tie_break_blank_only :
    (∀ (maestro : List MaestroRow) (c a : String) (m : MaestroRow),
        selectMaestro maestro c a = some m →
          m ∈ keyRows maestro c a
            ∧ ((keyRows maestro c a).any (fun x => isBlankCell x.cuentaPerdida) = true →
                isBlankCell m.cuentaPerdida = true)
            ∧ ((keyRows maestro c a).any (fun x => isBlankCell x.cuentaPerdida) = false →
                (keyRows maestro c a).head? = some m))
      ∧ (∀ (maestro : List MaestroRow) (c a : String),
          keyRows maestro c a = [] → selectMaestro maestro c a = none)
      ∧ ∀ (pN : String) (cds : List String) (maestro : List MaestroRow)
          (deudas : List DeudaRow) (d : DeudaRow), d ∈ deudas →
          selectMaestro maestro d.cuit (normAseg (some d.asegOrigen)) = none →
          ∃ r, r ∈ dfNoCruzan pN cds maestro deudas
            ∧ r.cuit = d.cuit ∧ r.aseguradora = d.asegOrigen := by
  refine ⟨?_, ?_, ?_⟩
  · intro maestro c a m hm
    rw [selectMaestro_def] at hm
    cases hf : (keyRows maestro c a).find? (fun x => isBlankCell x.cuentaPerdida) with
    | some m0 =>
      rw [hf] at hm
      have hm2 : m0 = m := Option.some.inj hm
      subst hm2
      have hb := List.find?_some hf
      refine ⟨List.mem_of_find?_eq_some hf, fun _ => hb, fun hany => ?_⟩
      exfalso
      have hx : (keyRows maestro c a).any (fun x => isBlankCell x.cuentaPerdida) = true :=
        List.any_eq_true.mpr ⟨m0, List.mem_of_find?_eq_some hf, hb⟩
      rw [hany] at hx
      exact absurd hx (by simp)
    | none =>
      rw [hf] at hm
      have hm2 : (keyRows maestro c a).head? = some m := hm
      have hmem : m ∈ keyRows maestro c a := by
        cases hk : keyRows maestro c a with
        | nil => rw [hk] at hm2; exact absurd hm2 (by simp)
        | cons x xs =>
          rw [hk] at hm2
          have hx : x = m := Option.some.inj hm2
          subst hx
          exact hk ▸ List.mem_cons_self x xs
      refine ⟨hmem, fun hany => ?_, fun _ => hm2⟩
      exfalso
      obtain ⟨x, hx, hbx⟩ := List.any_eq_true.mp hany
      exact (List.find?_eq_none.mp hf x hx) hbx
  · intro maestro c a h
    exact (selectMaestro_eq_none_iff maestro c a).mpr h
  · intro pN cds maestro deudas d hd hnone
    exact ⟨_, List.mem_map.mpr
      ⟨d, List.mem_filter.mpr ⟨hd, by simp [hnone]⟩, rfl⟩, rfl, rfl⟩

/-- C3 witness: with a blank-status row and an "Anulado" row sharing the
key, the selected row is the blank one. -/
theorem tie_break_blank_only_witness :
    maestroBase ∈ keyRows [mAnulado, maestroBase] "20123456789" "GALENO" :=
  (tie_break_blank_only.1 [mAnulado, maestroBase] "20123456789" "GALENO" maestroBase
    (by decide)).1

/-- C4 counterexample: a CUIT with two blank-status ("current") master
rows for the same insurer still matches — its extract row lands in the
matched base table and the Unmatched table stays empty. -/
theorem ambiguous_cuit_still_matches :
    isBlankCell maestroBase.cuentaPerdida = true
      ∧ isBlankCell mBlankBis.cuentaPerdida = true
      ∧ dfConsolidado "05-2024" [maestroBase, mBlankBis] [deudaBase] ≠ []
      ∧ dfNoCruzan "05-2024" [] [maestroBase, mBlankBis] [deudaBase] = [] := by decide

/-- C4 (amended): in this version there is no ambiguity routing — an
extract row reaches the Unmatched table exactly when its (CUIT, insurer)
key has zero master rows; duplicate current rows never send a row to
Unmatched. -/
theorem no_cruzan_iff_no_master_rows (pN : String) (cds : List String)
    (maestro : List MaestroRow) (deudas : List DeudaRow) (d : DeudaRow)
    (hd : d ∈ deudas) :
    (∃ r, r ∈ dfNoCruzan pN cds maestro deudas
        ∧ r.cuit = d.cuit ∧ r.aseguradora = d.asegOrigen)
      ↔ keyRows maestro d.cuit (normAseg (some d.asegOrigen)) = [] := by
  constructor
  · rintro ⟨r, hr, hc, ha⟩
    unfold dfNoCruzan at hr
    rw [List.mem_map] at hr
    obtain ⟨d', hd', rfl⟩ := hr
    rw [List.mem_filter] at hd'
    have hsel := Option.isNone_iff_eq_none.mp hd'.2
    have hc' : d'.cuit = d.cuit := hc
    have ha' : d'.asegOrigen = d.asegOrigen := ha
    rw [hc', ha'] at hsel
    exact (selectMaestro_eq_none_iff maestro _ _).mp hsel
  · intro hk
    have hnone := (selectMaestro_eq_none_iff maestro _ _).mpr hk
    exact ⟨_, List.mem_map.mpr
      ⟨d, List.mem_filter.mpr ⟨hd, by simp [hnone]⟩, rfl⟩, rfl, rfl⟩

/-- C4 witness: an extract row against an insurer absent from the master
produces an Unmatched row. -/
theorem no_cruzan_iff_no_master_rows_witness :
    ∃ r, r ∈ dfNoCruzan "05-2024" [] [maestroBase] [deudaMapfre]
      ∧ r.cuit = deudaMapfre.cuit ∧ r.aseguradora = deudaMapfre.asegOrigen :=
  (no_cruzan_iff_no_master_rows "05-2024" [] [maestroBase] [deudaMapfre] deudaMapfre
    (by decide)).mpr (by decide)

/-- C2 counterexample: a matched extract row with debt 5000 (≥ 1000)
whose master line-of-business is "Domestica" is dropped from the base
table, so retention is not equivalent to the debt condition alone. -/
theorem domestica_excluded_despite_debt :
    (derivedRows "05-2024" [mDomestica] [deuda5000]).map (fun p => p.1.deudaTotal)
        = [some 5000]
      ∧ dfConsolidado "05-2024" [mDomestica] [deuda5000] = [] := by decide

/-- C2 (amended): a matched extract row whose line-of-business is not
"Domestica" is retained in the base table exactly when its debt is
≥ 1000 or strictly negative (so 999 is dropped, 1000 and -50 kept);
"Domestica" rows are dropped regardless of debt. -/
theorem debt_band_membership (pN : String) (maestro : List MaestroRow)
    (deudas : List DeudaRow) (row : ConsolidadoRow) (m : MaestroRow)
    (hmem : (row, m) ∈ derivedRows pN maestro deudas)
    (hramo : ramoNotDomestica m = true) :
    row ∈ dfConsolidado pN maestro deudas ↔ debtKeep row.deudaTotal = true := by
  constructor
  · intro h
    unfold dfConsolidado at h
    rw [List.mem_map] at h
    obtain ⟨p, hp, rfl⟩ := h
    rw [List.mem_filter] at hp
    exact hp.2
  · intro h
    unfold dfConsolidado
    exact List.mem_map.mpr
      ⟨(row, m), List.mem_filter.mpr ⟨List.mem_filter.mpr ⟨hmem, hramo⟩, h⟩, rfl⟩

/-- C2 witness: the boundary rows — debt 1000 and debt -50 are kept,
debt 999 is dropped. -/
theorem debt_band_membership_witness :
    rowBase ∈ dfConsolidado "05-2024" [maestroBase] [deudaBase]
      ∧ debtKeep (some 999) = false ∧ debtKeep (some 1000) = true
      ∧ debtKeep (some (-50)) = true :=
  ⟨(debt_band_membership "05-2024" [maestroBase] [deudaBase] rowBase maestroBase
      (by decide) (by decide)).mpr (by decide),
    by decide, by decide, by decide⟩

/-- C1 counterexample: a master row with monthly cost -500 against debt
1000 keeps the negative cost and gets Q = -2; a negative cost is not
blanked as the claim states. -/
theorem negative_cost_not_blanked :
    (dfConsolidado "05-2024" [mNeg] [deuda1000]).map
        (fun r => (r.costoMensual, r.qPeriodos))
      = [(some (-500), some (-2))] := by decide

/-- C1 (amended): in every derived row, a blank or (2-decimal-rounded)
zero monthly cost blanks both the cost and Q fields — the division is
never performed with a zero divisor — and a nonzero (rounded) cost c,
of either sign, is kept with Q = round2(debt / c); every base-table row
arises from this derivation. -/
theorem cost_q_blanking :
    (∀ (pN : String) (ap : Bool) (d : DeudaRow) (m : MaestroRow),
        ((m.costo.map round2 = none ∨ m.costo.map round2 = some 0) →
            (derivarRow pN ap d m).costoMensual = none
              ∧ (derivarRow pN ap d m).qPeriodos = none)
          ∧ ∀ c, m.costo.map round2 = some c → c ≠ 0 →
              (derivarRow pN ap d m).costoMensual = some c
                ∧ ∀ dd, d.deudaTotal.map round2 = some dd →
                    (derivarRow pN ap d m).qPeriodos = some (round2 (dd / c)))
      ∧ ∀ (pN : String) (maestro : List MaestroRow) (deudas : List DeudaRow)
          (r : ConsolidadoRow), r ∈ dfConsolidado pN maestro deudas →
          ∃ ap d m, r = derivarRow pN ap d m := by
  constructor
  · intro pN ap d m
    constructor
    · intro h
      cases hm : m.costo with
      | none => simp [derivarRow, hm]
      | some c0 =>
        rw [hm] at h
        have hc : round2 c0 = 0 := by
          rcases h with h | h
          · exact absurd h (by simp)
          · simpa using h
        simp [derivarRow, hm, hc]
    · intro c hc hne
      cases hm : m.costo with
      | none => rw [hm] at hc; exact absurd hc (by simp)
      | some c0 =>
        rw [hm] at hc
        have hc2 : round2 c0 = c := by simpa using hc
        subst hc2
        constructor
        · simp [derivarRow, hm, hne]
        · intro dd hdd
          simp only [derivarRow, hm, hne]
          simp [hne, hdd, ratDiv_eq]
  · intro pN maestro deudas r h
    unfold dfConsolidado at h
    rw [List.mem_map] at h
    obtain ⟨p, hp, rfl⟩ := h
    rw [List.mem_filter] at hp
    obtain ⟨hp1, _⟩ := hp
    rw [List.mem_filter] at hp1
    obtain ⟨hp2, _⟩ := hp1
    unfold derivedRows at hp2
    rw [List.mem_map] at hp2
    obtain ⟨q, _, heq⟩ := hp2
    exact ⟨_, q.1, q.2, by rw [← heq]⟩

/-- C1 witness: with cost 1000 and debt 2500 the derived Q is
round2(2500 / 1000) (= 2.5). -/
theorem cost_q_blanking_witness :
    (derivarRow "05-2024" false deudaBase maestroBase).qPeriodos
      = some (round2 ((2500 : ℚ) / 1000)) :=
  ((cost_q_blanking.1 "05-2024" false deudaBase maestroBase).2 1000 (by decide)
    (by decide)).2 2500 (by decide)

/-- C8: membership in the "Deuda Promecor" view is exactly membership in
the base table plus the conjunction of the eight business conditions. -/
theorem deuda_promecor_membership (base : List ConsolidadoRow) (r : ConsolidadoRow) :
    r ∈ dfDeudaPromecor base ↔
      r ∈ base ∧ upperStr (stripStr (r.productor.getD "")) = "PROMECOR"
        ∧ (∃ v, r.qPeriodos = some v ∧ 1 < v)
        ∧ r.estadoContrato = some "Vigente"
        ∧ asBool r.clienteImportante = false
        ∧ asBool r.noContactar = false
        ∧ r.premier = some "No es Premier"
        ∧ isEmptyEmail r.email = false
        ∧ ∃ v, r.deudaTotal = some v ∧ 1000 ≤ v := by
  unfold dfDeudaPromecor
  rw [List.mem_filter]
  apply and_congr_right
  intro _
  unfold deudaPromecorPred
  cases hq : r.qPeriodos <;> cases hd : r.deudaTotal <;>
    simp [hq, hd, Bool.and_eq_true, beq_iff_eq, Bool.not_eq_true',
      decide_eq_true_eq, and_assoc]

/-- C8 witness: the view predicate accepts the base fixture row. -/
theorem deuda_promecor_membership_witness :
    rowBase ∈ dfDeudaPromecor [rowBase] :=
  (deuda_promecor_membership [rowBase] rowBase).mpr (by decide)

/-- C9: with hash-based duplicate detection on, a run whose input hash
matches an already-persisted lot is detected before any write: the call
returns a duplicate result with zero items created, and the store is
unchanged (even when period replacement was requested). -/
theorem persist_duplicate_no_write
    (hashFn : String → List String → List String → List String → String)
    (st : DBState) (pStr : String) (dfC dfN dfP : List String) (rep : Bool)
    (pe : ℕ × ℕ) (hper : parsePeriodo pStr = .ok pe)
    (l0 : Lote) (hl : l0 ∈ st.lotes) (hh : l0.hashEntrada = hashFn pStr dfC dfN dfP) :
    ∃ res, guardarLoteYItems hashFn st pStr dfC dfN dfP true true rep = .ok (st, res)
      ∧ res.duplicado = true ∧ res.itemsCreados = 0 := by
  have hmem : l0 ∈ st.lotes.filter (fun l => l.hashEntrada == hashFn pStr dfC dfN dfP) :=
    List.mem_filter.mpr ⟨hl, by simp [hh]⟩
  cases hfil : st.lotes.filter (fun l => l.hashEntrada == hashFn pStr dfC dfN dfP) with
  | nil => rw [hfil] at hmem; exact absurd hmem (by simp)
  | cons x xs =>
    refine ⟨⟨(xs.foldl (fun b l => if b.id < l.id then l else b) x).id, 0, true⟩, ?_, rfl, rfl⟩
    unfold guardarLoteYItems
    rw [hper]
    simp [hfil, maxIdLote]

/-- C9 witness: re-submitting the lot whose hash "h" is already stored
writes nothing and reports a duplicate. -/
theorem persist_duplicate_no_write_witness :
    ∃ res, guardarLoteYItems (fun _ _ _ _ => "h") stDup "05-2024" ["r1"] [] []
        true true false = .ok (stDup, res)
      ∧ res.duplicado = true ∧ res.itemsCreados = 0 :=
  persist_duplicate_no_write (fun _ _ _ _ => "h") stDup "05-2024" ["r1"] [] [] false
    (5, 2024) (by decide) loteDup (by decide) (by decide)

end Cobranzas
